import Mathlib

set_option maxRecDepth 8192

/-!
Shallow embedding of the geotagx-tool-validator configuration validation
engine (src/core.py, src/helper.py, src/project.py, src/question.py,
src/task_presenter.py, src/tutorial.py).

Deserialized JSON documents are modelled by `Value`; ordered mappings are
association lists in iteration order.  Python's `(valid, message)` results
are `Verdict`; raised exceptions are modelled by `PyResult.exc`.
-/

/-- A deserialized JSON value as the Python validators receive it.
`null` doubles as Python's `None` (JSON null deserializes to `None`). -/
inductive Value where
  | null
  | bool (b : Bool)
  | int (n : Int)
  | str (s : String)
  | list (xs : List Value)
  | dict (fields : List (String × Value))

/-- Python exception kinds the validators can raise. -/
inductive PyExc where
  | typeError
  | valueError
  | keyError
  | attributeError
  | notImplementedError
deriving DecidableEq, Repr

/-- Result of a Python call: a returned value or a raised exception. -/
inductive PyResult (α : Type) where
  | ret (a : α)
  | exc (e : PyExc)
deriving DecidableEq, Repr

/-- The `(valid, message)` pair every validator returns. -/
abbrev Verdict := Bool × Option String

/-- An ordered mapping (a deserialized JSON object). -/
abbrev Doc := List (String × Value)

/-- First-occurrence lookup, as in a Python dict built without duplicate keys. -/
def getField : Doc → String → Option Value
  | [], _ => none
  | (k, v) :: rest, key => if k = key then some v else getField rest key

/-- Python's `d.get(k)`: `None` when the key is absent. -/
def pyGet (d : Doc) (k : String) : Value :=
  match getField d k with
  | some v => v
  | none => .null

/-- The keys of a document, in iteration order. -/
def docKeys (d : Doc) : List String := d.map Prod.fst

/-- Python's `k in d` for a dict. -/
def hasKey (d : Doc) (k : String) : Bool := (docKeys d).contains k

/-- Python's `k not in d or d[k] is None` (the missing-field test of
question.py). -/
def missingIn (d : Doc) (k : String) : Bool :=
  match getField d k with
  | none => true
  | some .null => true
  | some _ => false

mutual

/-- Python's `==` restricted to the value shapes the validators compare.
`True == 1` holds in Python; dict and list comparison recurses
structurally (for dicts this is an order-sensitive approximation of
Python's order-insensitive dict equality; no validator compares dicts). -/
def pyEq : Value → Value → Bool
  | .null, .null => true
  | .bool a, .bool b => a == b
  | .bool a, .int n => (if a then (1 : Int) else 0) == n
  | .int n, .bool a => n == (if a then (1 : Int) else 0)
  | .int m, .int n => m == n
  | .str s, .str t => s == t
  | .list xs, .list ys => pyEqList xs ys
  | .dict xs, .dict ys => pyEqFields xs ys
  | _, _ => false

def pyEqList : List Value → List Value → Bool
  | [], [] => true
  | x :: xs, y :: ys => pyEq x y && pyEqList xs ys
  | _, _ => false

def pyEqFields : List (String × Value) → List (String × Value) → Bool
  | [], [] => true
  | (k1, v1) :: xs, (k2, v2) :: ys => k1 == k2 && pyEq v1 v2 && pyEqFields xs ys
  | _, _ => false

end

/-- Python's `str()` of a value, for message formatting.  Faithful for the
primitive shapes; lists and dicts (never formatted by a reachable message)
are abbreviated. -/
def pyStr : Value → String
  | .null => "None"
  | .bool true => "True"
  | .bool false => "False"
  | .int n => toString n
  | .str s => s
  | .list _ => "<list>"
  | .dict _ => "<dict>"

/-- Python's `"', '".join(xs)` wrapped in single quotes, the layout every
"missing/unexpected fields" message uses. -/
def quotedJoin (xs : List String) : String :=
  "'" ++ String.intercalate "', '" xs ++ "'"

/-- `"sep".join(values)` over a list of arbitrary values: Python raises
TypeError at a non-string element. -/
def joinValues (xs : List Value) : PyResult String :=
  if xs.all (fun v => match v with | .str _ => true | _ => false) then
    .ret (quotedJoin (xs.filterMap (fun v => match v with | .str s => some s | _ => none)))
  else .exc .typeError

/-- The characters Python 2's `str.isspace` recognizes. -/
def pyIsSpace (c : Char) : Bool :=
  c.toNat = 32 || c.toNat = 9 || c.toNat = 10 || c.toNat = 13 ||
  c.toNat = 11 || c.toNat = 12

def isLowerAZ (c : Char) : Bool := 97 ≤ c.toNat && c.toNat ≤ 122

def isUpperAZ (c : Char) : Bool := 65 ≤ c.toNat && c.toNat ≤ 90

def isDigit09 (c : Char) : Bool := 48 ≤ c.toNat && c.toNat ≤ 57

def isAlphaAZ (c : Char) : Bool := isLowerAZ c || isUpperAZ c

/-- helper.is_empty_string on an actual string: empty, or whitespace only. -/
def pyIsEmptyString (s : String) : Bool := s.data.all pyIsSpace

/-- helper.is_empty_string: raises TypeError for a non-string argument. -/
def is_empty_string (v : Value) : PyResult Bool :=
  match v with
  | .str s => .ret (pyIsEmptyString s)
  | _ => .exc .typeError

/-- helper.is_iso_3166_1_alpha_2_code on the character list of a (string)
code: `re.match("[A-Z]{2}", code)` whose group equals the whole code. -/
def is_iso_3166_1_alpha_2_code (cs : List Char) : Bool :=
  match cs with
  | [a, b] => isUpperAZ a && isUpperAZ b
  | _ => false

/-- helper.is_iso_15924_code on the character list of a (string) code:
`re.match("[A-Z]{1}[a-z]{3}", code)` whose group equals the whole code. -/
def is_iso_15924_code (cs : List Char) : Bool :=
  match cs with
  | [a, b, c, d] => isUpperAZ a && isLowerAZ b && isLowerAZ c && isLowerAZ d
  | _ => false

/-- The result of `re.match(r"([a-z]{2,3})(-[a-zA-Z]{2,4})?", code)`:
the matched group together with the variety sub-group when matched.
The primary subtag is matched greedily (up to 3 lowercase letters), then
the optional hyphen-variety group (2 to 4 letters, greedily). -/
def langTagMatch (cs : List Char) : Option (List Char × Option (List Char)) :=
  let p := (cs.takeWhile isLowerAZ).take 3
  if p.length < 2 then none
  else
    match cs.drop p.length with
    | '-' :: rest =>
      let v := (rest.takeWhile isAlphaAZ).take 4
      if v.length < 2 then some (p, none)
      else some (p ++ '-' :: v, some v)
    | _ => some (p, none)

/-- The regex-and-variety body of helper.is_language_code, without the
cache: the whole code is matched, and a variety subtag must be a valid
ISO 3166-1 alpha-2 or ISO 15924 code. -/
def langCodeValid (cs : List Char) : Bool :=
  match langTagMatch cs with
  | none => false
  | some (g, variety) =>
    if g = cs then
      match variety with
      | none => true
      | some v => is_iso_3166_1_alpha_2_code v || is_iso_15924_code v
    else false

/-- helper.is_language_code with its process-wide cache
(`KNOWN_LANGUAGE_CODES`) threaded explicitly: the pair is the verdict and
the cache after the call.  A TypeError from the empty-string check (non-
string argument) is caught and yields False. -/
def is_language_code (cache : List String) (v : Value) : Bool × List String :=
  match v with
  | .str s =>
    if pyIsEmptyString s then (false, cache)
    else if cache.contains s then (true, cache)
    else if langCodeValid s.data then (true, s :: cache)
    else (false, cache)
  | _ => (false, cache)

/-- helper.is_language_code's verdict, cache-free.  `is_language_code`
agrees with it from any cache whose members are themselves valid
(theorem `is_language_code_agrees`). -/
def is_language_code_pure (v : Value) : Bool :=
  match v with
  | .str s => if pyIsEmptyString s then false else langCodeValid s.data
  | _ => false

/-- `language_codes is None or isinstance(language_codes, list)`: the
argument shapes `check_arg_type(..., (list, type(None)))` accepts. -/
def langsArgOk (langs : Value) : Bool :=
  match langs with
  | .null => true
  | .list _ => true
  | _ => false

/-- Python's `l in d` for a language requirement against a dict's keys:
true exactly for a string key that is present (a non-string requirement
is either unequal to every key or unhashable, and the resulting TypeError
is caught by is_normalized_string's except clause, giving False overall). -/
def pyInKeys (l : Value) (ks : List String) : Bool :=
  match l with
  | .str t => ks.contains t
  | _ => false

/-- The generator clause of helper.is_normalized_string, cache-free:
`all(is_language_code(k) and not is_empty_string(v) for k, v in d)`,
where a TypeError from a non-string value is caught, failing the whole
check. -/
def normalizedPairsOk : Doc → Bool
  | [] => true
  | (k, v) :: rest =>
    if is_language_code_pure (.str k) then
      match v with
      | .str s => if pyIsEmptyString s then false else normalizedPairsOk rest
      | _ => false
    else false

/-- Same generator clause threading the language-code cache. -/
def normalizedPairsOkS (cache : List String) : Doc → Bool × List String
  | [] => (true, cache)
  | (k, v) :: rest =>
    match is_language_code cache (.str k) with
    | (true, cache2) =>
      (match v with
       | .str s => if pyIsEmptyString s then (false, cache2) else normalizedPairsOkS cache2 rest
       | _ => (false, cache2))
    | (false, cache2) => (false, cache2)

/-- helper.is_normalized_string, cache-free: a non-empty dict, every
required language present among its keys, every key a valid language code
mapped to a non-empty string.  Raises TypeError for a non-dict argument
or a language-code list of the wrong shape. -/
def is_normalized_string (v : Value) (langs : Value) : PyResult Bool :=
  match v with
  | .dict d =>
    (match langs with
     | .null =>
       .ret (!d.isEmpty && normalizedPairsOk d)
     | .list ls =>
       .ret (!d.isEmpty && ls.all (fun l => pyInKeys l (docKeys d)) && normalizedPairsOk d)
     | _ => .exc .typeError)
  | _ => .exc .typeError

/-- helper.is_normalized_string threading the language-code cache. -/
def is_normalized_stringS (cache : List String) (v : Value) (langs : Value) :
    PyResult Bool × List String :=
  match v with
  | .dict d =>
    (match langs with
     | .null =>
       if d.isEmpty then (.ret false, cache)
       else
         let r := normalizedPairsOkS cache d
         (.ret r.1, r.2)
     | .list ls =>
       if d.isEmpty then (.ret false, cache)
       else if ls.all (fun l => pyInKeys l (docKeys d)) then
         let r := normalizedPairsOkS cache d
         (.ret r.1, r.2)
       else (.ret false, cache)
     | _ => (.exc .typeError, cache))
  | _ => (.exc .typeError, cache)

/-- helper.is_configuration_string, cache-free: a non-empty plain string,
or a normalized string.  Any other argument shape raises TypeError. -/
def is_configuration_string (v : Value) (langs : Value) : PyResult Bool :=
  match v with
  | .str s => .ret (!pyIsEmptyString s)
  | .dict d => is_normalized_string (.dict d) langs
  | _ => .exc .typeError

/-- helper.is_configuration_string threading the language-code cache. -/
def is_configuration_stringS (cache : List String) (v : Value) (langs : Value) :
    PyResult Bool × List String :=
  match v with
  | .str s => (.ret (!pyIsEmptyString s), cache)
  | .dict d => is_normalized_stringS cache (.dict d) langs
  | _ => (.exc .typeError, cache)

/-- The host of helper.is_url's regex, first alternative:
`[^/:]+\.[a-z]{2,10}` matched against the whole host part (a nonempty
prefix, a dot, then 2 to 10 lowercase letters that must follow the last
dot).  The source regex's second alternative (intended for IP addresses)
is mis-escaped with doubled braces and matches only hosts containing
literal brace characters; it is not modelled. -/
def urlHostOk (cs : List Char) : Bool :=
  let revTail := cs.reverse.takeWhile (fun c => c ≠ '.')
  if revTail.length = cs.length then false
  else
    let tld := revTail.reverse
    let prefixLen := cs.length - tld.length - 1
    decide (0 < prefixLen) && decide (2 ≤ tld.length) && decide (tld.length ≤ 10) &&
      tld.all isLowerAZ

/-- helper.is_url on a string: scheme `[a-z]+://`, a host, an optional
`:port`, an optional `/path`. -/
def is_url (s : String) : Bool :=
  if pyIsEmptyString s then false
  else
    let cs := s.data
    let scheme := cs.takeWhile isLowerAZ
    if scheme.isEmpty then false
    else
      match cs.drop scheme.length with
      | ':' :: '/' :: '/' :: rest =>
        let hostport := rest.takeWhile (fun c => c ≠ '/')
        let path := rest.drop hostport.length
        let host := hostport.takeWhile (fun c => c ≠ ':')
        let port := hostport.drop host.length
        let portOk :=
          match port with
          | [] => true
          | ':' :: ds => !ds.isEmpty && ds.all isDigit09
          | _ => false
        let pathOk :=
          match path with
          | [] => true
          | '/' :: _ => true
          | _ => false
        urlHostOk host && portOk && pathOk
      | _ => false

/-! ## Validation messages (verbatim from the source) -/

def questionMissingMsg (ks : List String) : String :=
  "The question configuration is missing the following fields: " ++ quotedJoin ks ++ "."

def questionUnknownKeyMsg (k : String) : String :=
  "The question configuration key '" ++ k ++ "' is not recognized."

def questionKeyMsg : String :=
  "A question key must be a non-empty string strictly composed of alphanumeric characters (a-z, A-Z, 0-9), hyphens (-) or underscores (_). It must never begin with an underscore."

def reservedKeyMsg : String :=
  "A reserved key must be a non-empty string strictly composed of alphanumeric characters (a-z, A-Z, 0-9), hyphens (-) or underscores (_). It must always begin with an underscore."

def questionTitleMsg : String :=
  "A question title must be a non-empty or normalized string."

def questionHelpMsg : String :=
  "A question help field must be a non-empty or normalized string."

def branchKeyMsg : String :=
  "A question branch string must be a valid key, reserved or otherwise."

def branchEmptyMsg : String :=
  "A question branch dictionary must contain at least one answer-key pair."

def inputTypeEmptyMsg : String := "An input type must be a non-empty string."

def inputTypeUnknownMsg (t : String) : String :=
  "The input type '" ++ t ++ "' is not recognized."

def inputMissingMsg (ks : List String) : String :=
  "The question input configuration is missing the following fields: " ++ quotedJoin ks ++ "."

def inputUnexpectedMsg (t : String) (ks : List String) : String :=
  "A " ++ t ++ " configuration contains the following unexpected fields: " ++ quotedJoin ks ++ "."

def inputValidatorUnknownMsg (t : String) : String :=
  "The question input type '" ++ t ++ "' is not recognized."

def boolFieldMsg (k : String) : String :=
  "The '" ++ k ++ "' field must be a boolean value."

def optionsMsg : String := "The 'options' field must be a non-empty list."

def optionLabelMsg : String :=
  "An option label must be a non-empty or normalized string."

def optionValueMsg : String := "An option value must be a string."

def illustrationMissingMsg (ks : List String) : String :=
  "The illustration is missing the following fields: " ++ quotedJoin ks ++ "."

def illustrationEmptyMsg (k : String) : String :=
  "An illustration's '" ++ k ++ "' field must be a non-empty string."

def illustrationTypeMsg (k : String) : String :=
  "An illustration's '" ++ k ++ "' field must be a string."

def placeholderMsg : String :=
  "A placeholder must be a non-empty or normalized string."

def minLengthIntMsg : String := "The 'min-length' field must be an integer value."

def minLengthPosMsg : String := "The 'min-length' must be a positive integer."

def maxLengthIntMsg : String := "The 'max-length' field must be an integer value."

def maxGeMinMsg : String :=
  "The 'max-length' must be greater than or equal to the 'min-length'."

def geotaggingLocationMsg : String :=
  "A geotagging input's 'location' field must be a non-empty string."

def projectNameMsg : String := "A project name must be a non-empty string."

def projectNameTypeMsg : String := "The 'name' argument must be a string."

def projectShortNameMsg : String :=
  "A short name must be a non-empty string containing only of alphanumeric characters (a-z, A-Z, 0-9), hyphens (-) and underscores (_)."

def projectShortNameTypeMsg : String := "The 'short_name' argument must be a string."

def projectDescriptionMsg : String := "A project description must be a non-empty string."

def projectDescriptionTypeMsg : String := "The 'description' argument must be a string."

def projectRepositoryTypeMsg : String := "A repository URL must be a string."

def projectRepositoryUrlMsg : String :=
  "A repository configuration must be a valid URL and include the URL protocol."

def projectDoNotTrackMsg : String := "The 'do_not_track' argument must be a boolean."

def projectUnknownKeyMsg (k : String) : String :=
  "The project configuration key '" ++ k ++ "' is not recognized."

def tpMissingMsg (ks : List String) : String :=
  "The task presenter configuration is missing the following fields: " ++ quotedJoin ks ++ "."

def tpUnknownKeyMsg (k : String) : String :=
  "The task presenter configuration key '" ++ k ++ "' is not recognized."

def tpLangMissingMsg (ks : List String) : String :=
  "The task presenter's language configuration is missing the following fields: " ++ quotedJoin ks ++ "."

def tpAvailableListMsg : String :=
  "The list of available languages must be a non-empty list of language codes."

def tpInvalidCodesMsg (joined : String) : String :=
  "The task presenter's list of available languages contains the following invalid codes: '" ++ joined ++ "'."

def tpDefaultLangMsg (l : String) : String :=
  "The task presenter's default language '" ++ l ++ "' is not listed as an available language."

def tpSubjectMissingMsg (ks : List String) : String :=
  "The task presenter's subject configuration is missing the following fields: " ++ quotedJoin ks ++ "."

def tpSubjectUnknownKeyMsg (k : String) : String :=
  "The task presenter subject configuration key '" ++ k ++ "' is not recognized."

def subjectTypeEmptyMsg : String := "A subject type must be a non-empty string."

def subjectTypeUnknownMsg (t : String) : String :=
  "The subject type '" ++ t ++ "' is not recognized."

def questionnaireMissingMsg (ks : List String) : String :=
  "The task presenter's questionnaire configuration is missing the following fields: " ++ quotedJoin ks ++ "."

def questionnaireListMsg : String :=
  "A questionnaire must have a non-empty list of questions."

def tutorialMissingMsg (ks : List String) : String :=
  "The tutorial configuration is missing the following fields: " ++ quotedJoin ks ++ "."

def tutorialUnknownKeyMsg (k : String) : String :=
  "The tutorial configuration key '" ++ k ++ "' is not recognized."

def randomOrderMsg : String :=
  "The 'enable-random-order' argument must be a boolean."

def defaultMessageUnknownMsg (ks : List String) : String :=
  "The tutorial's 'default-message' contains the following unrecognized fields: " ++ quotedJoin ks ++ "."

def defaultMessageInvalidMsg (k : String) : String :=
  "The tutorial's default message field '" ++ k ++ "' is invalid. A message must be a non-empty or normalized string."

def tutorialSubjectsEmptyMsg : String :=
  "A project tutorial must contain one or more subjects."

def tutorialSubjectMissingMsg (ks : List String) : String :=
  "A tutorial's subject configuration is missing the following fields: " ++ quotedJoin ks ++ "."

def tutorialSubjectUnknownMsg (k : String) : String :=
  "The field '" ++ k ++ "' is not a recognized tutorial subject field."

def tutorialSourceMsg : String :=
  "A tutorial subject's 'source' field must be a non-empty string."

def tutorialPageMsg : String :=
  "A tutorial subject's 'page' field must be a non-empty string."

/-! ## The generic field-iteration loop

Every schema of the source repeats the same loop over a document's items:
look the key up in a validator table, fail on an unknown key with the
schema's own message, run the field validator, stop at the first failure. -/

/-- The per-schema field loop shared by project.py, question.py,
task_presenter.py and tutorial.py. -/
def validateFields (table : String → Option (Value → PyResult Verdict))
    (unknownMsg : String → String) : Doc → PyResult Verdict
  | [] => .ret (true, none)
  | (k, v) :: rest =>
    match table k with
    | none => .ret (false, some (unknownMsg k))
    | some f =>
      match f v with
      | .exc e => .exc e
      | .ret (false, m) => .ret (false, m)
      | .ret (true, _) => validateFields table unknownMsg rest

/-! ## question.py -/

/-- question.__is_key: a non-empty string of alphanumerics, hyphens and
underscores (regex `[a-zA-Z0-9-_]+` matching the whole key).  Raises
TypeError for a non-string argument. -/
def isKeyChar (c : Char) : Bool :=
  isLowerAZ c || isUpperAZ c || isDigit09 c || c = '-' || c = '_'

def is_key (v : Value) : PyResult Bool :=
  match v with
  | .str s =>
    if pyIsEmptyString s then .ret false
    else .ret (!s.data.isEmpty && s.data.all isKeyChar)
  | _ => .exc .typeError

/-- `key[0] == '_'` (evaluated only when the key is a valid key, hence
non-empty). -/
def headIsUnderscore (v : Value) : Bool :=
  match v with
  | .str s =>
    (match s.data with
     | c :: _ => c = '_'
     | [] => false)
  | _ => false

/-- question.is_question_key. -/
def is_question_key (v : Value) : PyResult Verdict :=
  match is_key v with
  | .exc e => .exc e
  | .ret b =>
    if !b || headIsUnderscore v then .ret (false, some questionKeyMsg)
    else .ret (true, none)

/-- question.is_reserved_key. -/
def is_reserved_key (v : Value) : PyResult Verdict :=
  match is_key v with
  | .exc e => .exc e
  | .ret b =>
    if !b || !headIsUnderscore v then .ret (false, some reservedKeyMsg)
    else .ret (true, none)

/-- question.is_question_title: a configuration string, with the TypeError
of is_configuration_string propagating to the caller. -/
def is_question_title (v : Value) (langs : Value) : PyResult Verdict :=
  match is_configuration_string v langs with
  | .exc e => .exc e
  | .ret b => if b then .ret (true, none) else .ret (false, some questionTitleMsg)

/-- question.is_question_help (also used for the `hint` field). -/
def is_question_help (v : Value) (langs : Value) : PyResult Verdict :=
  match is_configuration_string v langs with
  | .exc e => .exc e
  | .ret b => if b then .ret (true, none) else .ret (false, some questionHelpMsg)

/-- The value loop of question.is_question_branch's dictionary case:
`any(not __is_key(key) for key in question_branch.itervalues())`, with a
TypeError from a non-string value propagating. -/
def branchValuesOk : Doc → PyResult Verdict
  | [] => .ret (true, none)
  | (_, v) :: rest =>
    match is_key v with
    | .exc e => .exc e
    | .ret false => .ret (false, some branchKeyMsg)
    | .ret true => branchValuesOk rest

/-- question.is_question_branch. -/
def is_question_branch (v : Value) : PyResult Verdict :=
  match v with
  | .str s =>
    (match is_key (.str s) with
     | .exc e => .exc e
     | .ret false => .ret (false, some branchKeyMsg)
     | .ret true => .ret (true, none))
  | .dict d =>
    if d.isEmpty then .ret (false, some branchEmptyMsg)
    else branchValuesOk d
  | _ => .exc .typeError

/-- question.is_question_input_type.INPUT_TYPES. -/
def inputTypes : List String :=
  ["polar", "dropdown-list", "multiple-option", "text", "number", "datetime",
   "url", "geotagging"]

/-- question.is_question_input_type. -/
def is_question_input_type (v : Value) : PyResult Verdict :=
  match v with
  | .str s =>
    if pyIsEmptyString s then .ret (false, some inputTypeEmptyMsg)
    else if inputTypes.contains s then .ret (true, none)
    else .ret (false, some (inputTypeUnknownMsg s))
  | _ => .exc .typeError

/-- question.__is_polar_input. -/
def is_polar_input (_d : Doc) (_langs : Value) : PyResult Verdict :=
  .ret (true, none)

/-- question.__is_dropdown_list_input: unconditionally raises
NotImplementedError. -/
def is_dropdown_list_input (_d : Doc) (_langs : Value) : PyResult Verdict :=
  .exc .notImplementedError

/-- question.__is_number_input: unconditionally raises NotImplementedError. -/
def is_number_input (_d : Doc) (_langs : Value) : PyResult Verdict :=
  .exc .notImplementedError

/-- question.__is_datetime_input: unconditionally raises NotImplementedError. -/
def is_datetime_input (_d : Doc) (_langs : Value) : PyResult Verdict :=
  .exc .notImplementedError

/-- question.__is_url_input: unconditionally raises NotImplementedError. -/
def is_url_input (_d : Doc) (_langs : Value) : PyResult Verdict :=
  .exc .notImplementedError

/-- question.__is_multiple_option_input.ILLUSTRATION_FIELDS (in the order
of the source literal). -/
def illustrationFields : List String := ["image", "page", "attribution"]

/-- The illustration checks of question.__is_multiple_option_input:
first the keys that are unrecognized or mapped to None (reported with the
"missing fields" message), then each expected field must be a non-empty
string (a bare `except` turns any error into the "must be a string"
message). -/
def illustrationOk (v : Value) : PyResult Verdict :=
  match v with
  | .dict idoc =>
    let bad := (docKeys idoc).filter
      (fun k => !illustrationFields.contains k ||
        (match getField idoc k with | some .null => true | _ => false))
    if !bad.isEmpty then .ret (false, some (illustrationMissingMsg bad))
    else
      let rec fieldsLoop : List String → PyResult Verdict
        | [] => .ret (true, none)
        | k :: ks =>
          match pyGet idoc k with
          | .str s =>
            if pyIsEmptyString s then .ret (false, some (illustrationEmptyMsg k))
            else fieldsLoop ks
          | _ => .ret (false, some (illustrationTypeMsg k))
      fieldsLoop illustrationFields
  | _ => .exc .attributeError

/-- The option loop of question.__is_multiple_option_input.  A non-dict
option raises AttributeError at `option.get`. -/
def optionsLoop (enableIll : Bool) (langs : Value) : List Value → PyResult Verdict
  | [] => .ret (true, none)
  | opt :: rest =>
    match opt with
    | .dict od =>
      let label := pyGet od "label"
      let labelOk :=
        match label with
        | .null => false
        | _ =>
          match is_configuration_string label langs with
          | .ret b => b
          | .exc _ => false
      if !labelOk then .ret (false, some optionLabelMsg)
      else
        match pyGet od "value" with
        | .str _ =>
          let illustration := if enableIll then pyGet od "illustration" else .null
          (match illustration with
           | .null => optionsLoop enableIll langs rest
           | ill =>
             match illustrationOk ill with
             | .exc e => .exc e
             | .ret (false, m) => .ret (false, m)
             | .ret (true, _) => optionsLoop enableIll langs rest)
        | _ => .ret (false, some optionValueMsg)
    | _ => .exc .attributeError

/-- question.__is_multiple_option_input. -/
def is_multiple_option_input (d : Doc) (langs : Value) : PyResult Verdict :=
  let rec boolFlagsLoop : List String → Option String
    | [] => none
    | k :: ks =>
      match pyGet d k with
      | .null => boolFlagsLoop ks
      | .bool _ => boolFlagsLoop ks
      | _ => some k
  match boolFlagsLoop ["enable-multiple-choices", "enable-other-option", "enable-illustrations"] with
  | some k => .ret (false, some (boolFieldMsg k))
  | none =>
    match pyGet d "options" with
    | .null => .ret (false, some optionsMsg)
    | options =>
      let enableIll := pyEq (pyGet d "enable-illustrations") (.bool true)
      match options with
      | .list opts =>
        if opts.isEmpty then .ret (false, some optionsMsg)
        else optionsLoop enableIll langs opts
      | _ => .ret (false, some optionsMsg)

/-- question.__is_text_input. -/
def is_text_input (d : Doc) (langs : Value) : PyResult Verdict :=
  let placeholder := pyGet d "placeholder"
  let placeholderOk :=
    match placeholder with
    | .null => true
    | v =>
      match is_configuration_string v langs with
      | .ret b => b
      | .exc _ => false
  if !placeholderOk then .ret (false, some placeholderMsg)
  else
    let longTextOk :=
      match pyGet d "enable-long-text" with
      | .null => true
      | .bool _ => true
      | _ => false
    if !longTextOk then .ret (false, some (boolFieldMsg "enable-long-text"))
    else
      -- `isinstance(n, int)` also accepts Python booleans (bool <: int).
      let asInt : Value → Option Int := fun v =>
        match v with
        | .int n => some n
        | .bool b => some (if b then 1 else 0)
        | _ => none
      match pyGet d "min-length" with
      | .null =>
        (match pyGet d "max-length" with
         | .null => .ret (true, none)
         | mv =>
           match asInt mv with
           | none => .ret (false, some maxLengthIntMsg)
           | some m =>
             if m < 0 then .ret (false, some minLengthPosMsg)
             else .ret (true, none))
      | nv =>
        match asInt nv with
        | none => .ret (false, some minLengthIntMsg)
        | some n =>
          if n < 0 then .ret (false, some minLengthPosMsg)
          else
            match pyGet d "max-length" with
            | .null => .ret (true, none)
            | mv =>
              match asInt mv with
              | none => .ret (false, some maxLengthIntMsg)
              | some m =>
                if m < 0 then .ret (false, some minLengthPosMsg)
                else if m < n then .ret (false, some maxGeMinMsg)
                else .ret (true, none)

/-- question.__is_geotagging_input. -/
def is_geotagging_input (d : Doc) (_langs : Value) : PyResult Verdict :=
  match pyGet d "location" with
  | .null => .ret (true, none)
  | .str s =>
    if pyIsEmptyString s then .ret (false, some geotaggingLocationMsg)
    else .ret (true, none)
  | _ => .ret (false, some geotaggingLocationMsg)

/-- question.is_question_input.EXPECTED_FIELDS. -/
def expectedInputFields (t : String) : List String :=
  if t = "polar" then ["type"]
  else if t = "dropdown-list" then ["options", "prompt", "size"]
  else if t = "multiple-option" then
    ["options", "enable-multiple-choices", "enable-other-option",
     "enable-illustrations", "size"]
  else if t = "text" then
    ["enable-long-text", "min-length", "max-length", "placeholder"]
  else if t = "number" then ["min-value", "max-value", "placeholder"]
  else if t = "datetime" then
    ["date-format", "time-format", "from", "to", "disable-date", "disable-time"]
  else if t = "url" then ["max-length", "domain", "placeholder"]
  else if t = "geotagging" then ["location"]
  else []

/-- question.is_question_input.VALIDATORS. -/
def inputValidator (t : String) : Option (Doc → Value → PyResult Verdict) :=
  if t = "polar" then some is_polar_input
  else if t = "dropdown-list" then some is_dropdown_list_input
  else if t = "multiple-option" then some is_multiple_option_input
  else if t = "text" then some is_text_input
  else if t = "number" then some is_number_input
  else if t = "datetime" then some is_datetime_input
  else if t = "url" then some is_url_input
  else if t = "geotagging" then some is_geotagging_input
  else none

/-- question.is_question_input.REQUIRED_FIELDS. -/
def inputRequiredFields : List String := ["type"]

/-- question.is_question_input. -/
def is_question_input (v : Value) (langs : Value) : PyResult Verdict :=
  match v with
  | .dict d =>
    if !langsArgOk langs then .exc .typeError
    else
      let missing := inputRequiredFields.filter (missingIn d)
      if !missing.isEmpty then .ret (false, some (inputMissingMsg missing))
      else
        let t := pyGet d "type"
        match is_question_input_type t with
        | .exc e => .exc e
        | .ret (false, m) => .ret (false, m)
        | .ret (true, _) =>
          match t with
          | .str s =>
            let fields := (docKeys d).filter (fun k => !inputRequiredFields.contains k)
            let unexpected := fields.filter (fun k => !(expectedInputFields s).contains k)
            if !unexpected.isEmpty then
              .ret (false, some (inputUnexpectedMsg s unexpected))
            else
              (match inputValidator s with
               | none => .ret (false, some (inputValidatorUnknownMsg s))
               | some f => f d langs)
          | _ => .exc .typeError
  | _ => .exc .typeError

/-- question.is_question.REQUIRED_FIELDS (source-literal order). -/
def questionRequiredFields : List String := ["key", "title", "input"]

/-- question.is_question's validator table; `available_languages` is
bound into the title/hint/help/input validators by functools.partial. -/
def questionFieldValidator (langs : Value) (k : String) :
    Option (Value → PyResult Verdict) :=
  if k = "key" then some is_question_key
  else if k = "title" then some (fun v => is_question_title v langs)
  else if k = "hint" then some (fun v => is_question_help v langs)
  else if k = "help" then some (fun v => is_question_help v langs)
  else if k = "input" then some (fun v => is_question_input v langs)
  else if k = "branch" then some is_question_branch
  else none

/-- question.is_question. -/
def is_question (v : Value) (langs : Value) : PyResult Verdict :=
  match v with
  | .dict d =>
    if !langsArgOk langs then .exc .typeError
    else
      let missing := questionRequiredFields.filter (missingIn d)
      if !missing.isEmpty then .ret (false, some (questionMissingMsg missing))
      else validateFields (questionFieldValidator langs) questionUnknownKeyMsg d
  | _ => .exc .typeError

/-! ## project.py -/

/-- project.is_project_name: a TypeError from the empty-string check is
caught and reported as a type message. -/
def is_project_name (v : Value) : PyResult Verdict :=
  match v with
  | .str s =>
    if pyIsEmptyString s then .ret (false, some projectNameMsg)
    else .ret (true, none)
  | _ => .ret (false, some projectNameTypeMsg)

/-- project.is_project_short_name: non-empty, and regex `[a-zA-Z0-9-_]+`
must match the whole short name. -/
def is_project_short_name (v : Value) : PyResult Verdict :=
  match v with
  | .str s =>
    if pyIsEmptyString s then .ret (false, some projectShortNameMsg)
    else if !s.data.isEmpty && s.data.all isKeyChar then .ret (true, none)
    else .ret (false, some projectShortNameMsg)
  | _ => .ret (false, some projectShortNameTypeMsg)

/-- project.is_project_description. -/
def is_project_description (v : Value) : PyResult Verdict :=
  match v with
  | .str s =>
    if pyIsEmptyString s then .ret (false, some projectDescriptionMsg)
    else .ret (true, none)
  | _ => .ret (false, some projectDescriptionTypeMsg)

/-- project.is_project_repository. -/
def is_project_repository (v : Value) : PyResult Verdict :=
  match v with
  | .str s =>
    if is_url s then .ret (true, none)
    else .ret (false, some projectRepositoryUrlMsg)
  | _ => .ret (false, some projectRepositoryTypeMsg)

/-- project.is_project_do_not_track. -/
def is_project_do_not_track (v : Value) : PyResult Verdict :=
  match v with
  | .bool _ => .ret (true, none)
  | _ => .ret (false, some projectDoNotTrackMsg)

/-- project.is_project_configuration's validator table. -/
def projectFieldValidator (k : String) : Option (Value → PyResult Verdict) :=
  if k = "name" then some is_project_name
  else if k = "short_name" then some is_project_short_name
  else if k = "description" then some is_project_description
  else if k = "repository" then some is_project_repository
  else if k = "do_not_track" then some is_project_do_not_track
  else none

/-- project.is_project_configuration's required fields (tested with plain
key membership, so an explicit null still counts as present). -/
def projectRequiredFields : List String := ["name", "short_name", "description"]

/-- project.is_project_configuration: a required field that is absent
raises ValueError ("A required configuration is missing..."), it does not
return a verdict. -/
def is_project_configuration (v : Value) : PyResult Verdict :=
  match v with
  | .dict d =>
    if projectRequiredFields.all (hasKey d) then
      validateFields projectFieldValidator projectUnknownKeyMsg d
    else .exc .valueError
  | _ => .exc .typeError

/-! ## task_presenter.py -/

/-- task_presenter.is_task_presenter_language. -/
def is_task_presenter_language (v : Value) : PyResult Verdict :=
  match v with
  | .dict d =>
    let missing := (["default", "available"].filter (fun k => !hasKey d k))
    if !missing.isEmpty then .ret (false, some (tpLangMissingMsg missing))
    else
      match pyGet d "available" with
      | .list ls =>
        if ls.isEmpty then .ret (false, some tpAvailableListMsg)
        else
          let invalid := ls.filter (fun l => !is_language_code_pure l)
          if !invalid.isEmpty then
            -- joining the invalid codes raises TypeError at a non-string code
            (match joinValues invalid with
             | .ret j => .ret (false, some (tpInvalidCodesMsg j))
             | .exc e => .exc e)
          else
            let dflt := pyGet d "default"
            if ls.any (fun l => pyEq dflt l) then .ret (true, none)
            else .ret (false, some (tpDefaultLangMsg (pyStr dflt)))
      | _ => .ret (false, some tpAvailableListMsg)
  | _ => .exc .typeError

/-- task_presenter.is_subject_type. -/
def is_subject_type (v : Value) : PyResult Verdict :=
  match v with
  | .str s =>
    if pyIsEmptyString s then .ret (false, some subjectTypeEmptyMsg)
    else if s = "image" || s = "pdf" then .ret (true, none)
    else .ret (false, some (subjectTypeUnknownMsg s))
  | _ => .exc .typeError

/-- task_presenter.is_task_presenter_subject. -/
def is_task_presenter_subject (v : Value) : PyResult Verdict :=
  match v with
  | .dict d =>
    let missing := (["type"].filter (fun k => !hasKey d k))
    if !missing.isEmpty then .ret (false, some (tpSubjectMissingMsg missing))
    else
      validateFields
        (fun k => if k = "type" then some is_subject_type else none)
        tpSubjectUnknownKeyMsg d
  | _ => .exc .typeError

/-- The question loop of task_presenter.is_task_presenter_questionnaire. -/
def questionsLoop (langs : Value) : List Value → PyResult Verdict
  | [] => .ret (true, none)
  | q :: rest =>
    match is_question q langs with
    | .exc e => .exc e
    | .ret (false, m) => .ret (false, m)
    | .ret (true, _) => questionsLoop langs rest

/-- task_presenter.is_task_presenter_questionnaire. -/
def is_task_presenter_questionnaire (v : Value) (langs : Value) : PyResult Verdict :=
  match v with
  | .dict d =>
    if !langsArgOk langs then .exc .typeError
    else
      let missing := (["questions"].filter (fun k => !hasKey d k))
      if !missing.isEmpty then .ret (false, some (questionnaireMissingMsg missing))
      else
        match pyGet d "questions" with
        | .list qs =>
          if qs.isEmpty then .ret (false, some questionnaireListMsg)
          else questionsLoop langs qs
        | _ => .ret (false, some questionnaireListMsg)
  | _ => .exc .typeError

/-- task_presenter.is_task_presenter_configuration's validator table.
The source stores the bare function `is_task_presenter_questionnaire` and
the loop calls it with the field value only, so its `languages` parameter
always takes its default None: the declared available-language list is
never passed down. -/
def tpFieldValidator (k : String) : Option (Value → PyResult Verdict) :=
  if k = "language" then some is_task_presenter_language
  else if k = "subject" then some is_task_presenter_subject
  else if k = "questionnaire" then some (fun v => is_task_presenter_questionnaire v .null)
  else none

/-- task_presenter.is_task_presenter_configuration. -/
def is_task_presenter_configuration (v : Value) : PyResult Verdict :=
  match v with
  | .dict d =>
    let missing := (["questionnaire"].filter (fun k => !hasKey d k))
    if !missing.isEmpty then .ret (false, some (tpMissingMsg missing))
    else validateFields tpFieldValidator tpUnknownKeyMsg d
  | _ => .exc .typeError

/-! ## tutorial.py -/

/-- tutorial.is_tutorial_enable_random_order. -/
def is_tutorial_enable_random_order (v : Value) : PyResult Verdict :=
  match v with
  | .bool _ => .ret (true, none)
  | _ => .ret (false, some randomOrderMsg)

/-- The message loop of tutorial.is_tutorial_default_message: a TypeError
from is_configuration_string propagates. -/
def defaultMessageLoop (langs : Value) : Doc → PyResult Verdict
  | [] => .ret (true, none)
  | (k, v) :: rest =>
    match is_configuration_string v langs with
    | .exc e => .exc e
    | .ret false => .ret (false, some (defaultMessageInvalidMsg k))
    | .ret true => defaultMessageLoop langs rest

/-- tutorial.is_tutorial_default_message. -/
def is_tutorial_default_message (v : Value) (langs : Value) : PyResult Verdict :=
  match v with
  | .dict d =>
    if !langsArgOk langs then .exc .typeError
    else
      let unexpected := (docKeys d).filter
        (fun k => !(["on-wrong-answer", "on-correct-answer"].contains k))
      if !unexpected.isEmpty then
        .ret (false, some (defaultMessageUnknownMsg unexpected))
      else defaultMessageLoop langs d
  | _ => .exc .typeError

/-- tutorial.is_tutorial_subject_source. -/
def is_tutorial_subject_source (v : Value) : PyResult Verdict :=
  match v with
  | .str s =>
    if pyIsEmptyString s then .ret (false, some tutorialSourceMsg)
    else .ret (true, none)
  | _ => .exc .typeError

/-- tutorial.is_tutorial_subject_page. -/
def is_tutorial_subject_page (v : Value) : PyResult Verdict :=
  match v with
  | .str s =>
    if pyIsEmptyString s then .ret (false, some tutorialPageMsg)
    else .ret (true, none)
  | _ => .exc .typeError

/-- tutorial.is_tutorial_subject_assertion: after its argument-type
checks it unconditionally raises NotImplementedError. -/
def is_tutorial_subject_assertion (v : Value) (langs : Value) : PyResult Verdict :=
  match v with
  | .dict _ =>
    if !langsArgOk langs then .exc .typeError
    else .exc .notImplementedError
  | _ => .exc .typeError

/-- The assertion loop of tutorial.__is_tutorial_subject_assertions: each
key must satisfy is_question_key (which rejects keys that begin with an
underscore), then the assertion is passed to is_tutorial_subject_assertion. -/
def assertionsLoop (langs : Value) : Doc → PyResult Verdict
  | [] => .ret (true, none)
  | (k, a) :: rest =>
    match is_question_key (.str k) with
    | .exc e => .exc e
    | .ret (false, m) => .ret (false, m)
    | .ret (true, _) =>
      match is_tutorial_subject_assertion a langs with
      | .exc e => .exc e
      | .ret (false, m) => .ret (false, m)
      | .ret (true, _) => assertionsLoop langs rest

/-- tutorial.__is_tutorial_subject_assertions. -/
def is_tutorial_subject_assertions (v : Value) (langs : Value) : PyResult Verdict :=
  match v with
  | .dict d =>
    if !langsArgOk langs then .exc .typeError
    else assertionsLoop langs d
  | _ => .exc .typeError

/-- tutorial.is_tutorial_subject's required fields (source-literal order). -/
def tutorialSubjectRequiredFields : List String := ["source", "page", "assertions"]

/-- tutorial.is_tutorial_subject. -/
def is_tutorial_subject (v : Value) (langs : Value) : PyResult Verdict :=
  match v with
  | .dict d =>
    if !langsArgOk langs then .exc .typeError
    else
      let missing := tutorialSubjectRequiredFields.filter (fun k => !hasKey d k)
      if !missing.isEmpty then .ret (false, some (tutorialSubjectMissingMsg missing))
      else
        validateFields
          (fun k =>
            if k = "source" then some is_tutorial_subject_source
            else if k = "page" then some is_tutorial_subject_page
            else if k = "assertions" then
              some (fun a => is_tutorial_subject_assertions a langs)
            else none)
          tutorialSubjectUnknownMsg d
  | _ => .exc .typeError

/-- The subject loop of tutorial.__is_tutorial_subjects. -/
def subjectsLoop (langs : Value) : List Value → PyResult Verdict
  | [] => .ret (true, none)
  | s :: rest =>
    match is_tutorial_subject s langs with
    | .exc e => .exc e
    | .ret (false, m) => .ret (false, m)
    | .ret (true, _) => subjectsLoop langs rest

/-- tutorial.__is_tutorial_subjects. -/
def is_tutorial_subjects (v : Value) (langs : Value) : PyResult Verdict :=
  match v with
  | .list subjects =>
    if !langsArgOk langs then .exc .typeError
    else if subjects.isEmpty then .ret (false, some tutorialSubjectsEmptyMsg)
    else subjectsLoop langs subjects
  | _ => .exc .typeError

/-- `task_presenter_configuration["language"]["available"] if "language"
in task_presenter_configuration else None`: indexing a non-dict language
block raises TypeError, a missing "available" key raises KeyError. -/
def tpAvailableLanguages (tpd : Doc) : PyResult Value :=
  if hasKey tpd "language" then
    match pyGet tpd "language" with
    | .dict ld =>
      (match getField ld "available" with
       | some v => .ret v
       | none => .exc .keyError)
    | _ => .exc .typeError
  else .ret .null

/-- tutorial.is_tutorial_configuration's validator table, with the
available-language list bound in by functools.partial. -/
def tutorialFieldValidator (langs : Value) (k : String) :
    Option (Value → PyResult Verdict) :=
  if k = "enable-random-order" then some is_tutorial_enable_random_order
  else if k = "default-message" then some (fun v => is_tutorial_default_message v langs)
  else if k = "subjects" then some (fun v => is_tutorial_subjects v langs)
  else none

/-- tutorial.is_tutorial_configuration. -/
def is_tutorial_configuration (tut : Value) (tp : Value)
    (validateTaskPresenter : Bool) : PyResult Verdict :=
  match tut, tp with
  | .dict d, .dict tpd =>
    let afterTp : PyResult Verdict :=
      if validateTaskPresenter then is_task_presenter_configuration (.dict tpd)
      else .ret (true, none)
    (match afterTp with
     | .exc e => .exc e
     | .ret (false, m) => .ret (false, m)
     | .ret (true, _) =>
       let missing := (["subjects"].filter (fun k => !hasKey d k))
       if !missing.isEmpty then .ret (false, some (tutorialMissingMsg missing))
       else
         match tpAvailableLanguages tpd with
         | .exc e => .exc e
         | .ret langs => validateFields (tutorialFieldValidator langs) tutorialUnknownKeyMsg d)
  | _, _ => .exc .typeError

/-! ## core.py -/

/-- core.is_configuration_set's `is_nonempty_dictionary` applied to
`configurations.get(k)`. -/
def isNonemptyDict (v : Value) : Bool :=
  match v with
  | .dict (_ :: _) => true
  | _ => false

/-- The member loop of core.is_configuration_set: a key outside the
validator table raises KeyError (`validators[key]`). -/
def configSetLoop (tpv : Value) : Doc → PyResult Verdict
  | [] => .ret (true, none)
  | (k, cfg) :: rest =>
    let step : PyResult Verdict :=
      if k = "project" then is_project_configuration cfg
      else if k = "task_presenter" then is_task_presenter_configuration cfg
      else if k = "tutorial" then is_tutorial_configuration cfg tpv false
      else .exc .keyError
    match step with
    | .exc e => .exc e
    | .ret (false, m) => .ret (false, m)
    | .ret (true, _) => configSetLoop tpv rest

/-- core.is_configuration_set. -/
def is_configuration_set (v : Value) : PyResult Verdict :=
  match v with
  | .dict cfgs =>
    if isNonemptyDict (pyGet cfgs "project") && isNonemptyDict (pyGet cfgs "task_presenter") then
      configSetLoop (pyGet cfgs "task_presenter") cfgs
    else .exc .valueError
  | _ => .exc .typeError

/-! ## Cache soundness -/

/-- Every tag held by the language-code cache is itself a valid language
code.  The empty starting cache satisfies this, and every call preserves
it. -/
def CacheSound (cache : List String) : Prop :=
  ∀ t ∈ cache, is_language_code_pure (.str t) = true

theorem cacheSound_nil : CacheSound [] := by
  intro t ht
  cases ht

/-- From a cache whose members are valid, the cached check returns the
cache-free verdict. -/
theorem is_language_code_fst (cache : List String) (v : Value)
    (h : CacheSound cache) :
    (is_language_code cache v).1 = is_language_code_pure v := by
  cases v with
  | str s =>
    by_cases he : pyIsEmptyString s = true
    · simp [is_language_code, is_language_code_pure, he]
    · have he' : pyIsEmptyString s = false := by simpa using he
      by_cases hc : s ∈ cache
      · have hp := h s hc
        simp [is_language_code_pure, he'] at hp
        simp [is_language_code, is_language_code_pure, he', hc, hp]
      · by_cases hv : langCodeValid s.data = true
        · simp [is_language_code, is_language_code_pure, he', hc, hv]
        · have hv' : langCodeValid s.data = false := by simpa using hv
          simp [is_language_code, is_language_code_pure, he', hc, hv']
  | null => simp [is_language_code, is_language_code_pure]
  | bool b => simp [is_language_code, is_language_code_pure]
  | int n => simp [is_language_code, is_language_code_pure]
  | list xs => simp [is_language_code, is_language_code_pure]
  | dict d => simp [is_language_code, is_language_code_pure]

/-- A call leaves the cache unchanged, or prepends exactly the string it
was called on, and then only after a positive verdict. -/
theorem is_language_code_snd_cases (cache : List String) (v : Value) :
    (is_language_code cache v).2 = cache ∨
    (∃ s, v = .str s ∧ (is_language_code cache v).2 = s :: cache ∧
      (is_language_code cache v).1 = true ∧ is_language_code_pure v = true) := by
  cases v with
  | str s =>
    by_cases he : pyIsEmptyString s = true
    · left; simp [is_language_code, he]
    · have he' : pyIsEmptyString s = false := by simpa using he
      by_cases hc : s ∈ cache
      · left; simp [is_language_code, he', hc]
      · by_cases hv : langCodeValid s.data = true
        · right
          exact ⟨s, rfl, by simp [is_language_code, he', hc, hv],
            by simp [is_language_code, he', hc, hv],
            by simp [is_language_code_pure, he', hv]⟩
        · have hv' : langCodeValid s.data = false := by simpa using hv
          left; simp [is_language_code, he', hc, hv']
  | null => left; rfl
  | bool b => left; rfl
  | int n => left; rfl
  | list xs => left; rfl
  | dict d => left; rfl

theorem is_language_code_mono (cache : List String) (v : Value) :
    cache ⊆ (is_language_code cache v).2 := by
  rcases is_language_code_snd_cases cache v with h | ⟨s, _, h2, _, _⟩
  · rw [h]; exact fun x hx => hx
  · rw [h2]; exact List.subset_cons_self s cache

theorem is_language_code_sound (cache : List String) (v : Value)
    (h : CacheSound cache) : CacheSound (is_language_code cache v).2 := by
  rcases is_language_code_snd_cases cache v with hsnd | ⟨s, hv, h2, _, hpure⟩
  · rw [hsnd]; exact h
  · rw [h2]
    intro t ht
    rcases List.mem_cons.mp ht with rfl | ht2
    · rw [← hv]; exact hpure
    · exact h t ht2

theorem is_language_code_false_unchanged (cache : List String) (v : Value)
    (h : (is_language_code cache v).1 = false) :
    (is_language_code cache v).2 = cache := by
  rcases is_language_code_snd_cases cache v with hsnd | ⟨_, _, _, h1, _⟩
  · exact hsnd
  · rw [h1] at h; cases h

theorem is_language_code_new_mem (cache : List String) (v : Value)
    (t : String) (h : t ∈ (is_language_code cache v).2) :
    t ∈ cache ∨ (v = .str t ∧ (is_language_code cache v).1 = true) := by
  rcases is_language_code_snd_cases cache v with hsnd | ⟨s, hv, h2, h1, _⟩
  · rw [hsnd] at h; exact Or.inl h
  · rw [h2] at h
    rcases List.mem_cons.mp h with rfl | h3
    · exact Or.inr ⟨hv, h1⟩
    · exact Or.inl h3

/-- A positive verdict puts (or finds) the tag in the resulting cache. -/
theorem is_language_code_true_mem (cache : List String) (s : String)
    (h : (is_language_code cache (.str s)).1 = true) :
    s ∈ (is_language_code cache (.str s)).2 ∧ pyIsEmptyString s = false := by
  by_cases he : pyIsEmptyString s = true
  · simp [is_language_code, he] at h
  · have he' : pyIsEmptyString s = false := by simpa using he
    refine ⟨?_, he'⟩
    by_cases hc : s ∈ cache
    · simp [is_language_code, he', hc]
    · by_cases hv : langCodeValid s.data = true
      · simp [is_language_code, he', hc, hv]
      · have hv' : langCodeValid s.data = false := by simpa using hv
        simp [is_language_code, he', hc, hv'] at h

/-- Once the check returns True for a tag, any later cache that extends
the resulting one keeps returning True for it. -/
theorem is_language_code_true_stable (cache : List String) (s : String)
    (h : (is_language_code cache (.str s)).1 = true)
    (cache2 : List String) (hsub : (is_language_code cache (.str s)).2 ⊆ cache2) :
    (is_language_code cache2 (.str s)).1 = true := by
  obtain ⟨hmem, he'⟩ := is_language_code_true_mem cache s h
  have hmem2 : s ∈ cache2 := hsub hmem
  simp [is_language_code, he', hmem2]

/-- The per-pair generator of is_normalized_string: from a sound cache
its verdict is the cache-free one, soundness is preserved, and the cache
only grows. -/
theorem normalizedPairsOkS_spec (d : Doc) (cache : List String)
    (h : CacheSound cache) :
    (normalizedPairsOkS cache d).1 = normalizedPairsOk d ∧
    CacheSound (normalizedPairsOkS cache d).2 ∧
    cache ⊆ (normalizedPairsOkS cache d).2 := by
  induction d generalizing cache with
  | nil =>
    exact ⟨rfl, h, fun x hx => hx⟩
  | cons kv rest ih =>
    obtain ⟨k, v⟩ := kv
    have hfst := is_language_code_fst cache (.str k) h
    have hsound := is_language_code_sound cache (.str k) h
    have hmono := is_language_code_mono cache (.str k)
    rcases hlc : is_language_code cache (.str k) with ⟨b, cache2⟩
    rw [hlc] at hfst hsound hmono
    cases b with
    | false =>
      have hpure : is_language_code_pure (.str k) = false := hfst.symm
      simp only [normalizedPairsOkS, normalizedPairsOk, hlc, hpure]
      exact ⟨rfl, hsound, hmono⟩
    | true =>
      have hpure : is_language_code_pure (.str k) = true := hfst.symm
      obtain ⟨ih1, ih2, ih3⟩ := ih cache2 hsound
      cases v with
      | str s =>
        by_cases he : pyIsEmptyString s = true
        · simp only [normalizedPairsOkS, normalizedPairsOk, hlc, hpure, he,
            if_pos rfl, if_true]
          simpa [he] using ⟨hsound, hmono⟩
        · have he' : pyIsEmptyString s = false := by simpa using he
          simp only [normalizedPairsOkS, normalizedPairsOk, hlc, hpure, he',
            if_true]
          simp only [he', if_false, Bool.false_eq_true]
          exact ⟨ih1, ih2, fun x hx => ih3 (hmono hx)⟩
      | null =>
        simp only [normalizedPairsOkS, normalizedPairsOk, hlc, hpure, if_true]
        exact ⟨by simp, hsound, hmono⟩
      | bool b2 =>
        simp only [normalizedPairsOkS, normalizedPairsOk, hlc, hpure, if_true]
        exact ⟨by simp, hsound, hmono⟩
      | int n =>
        simp only [normalizedPairsOkS, normalizedPairsOk, hlc, hpure, if_true]
        exact ⟨by simp, hsound, hmono⟩
      | list xs =>
        simp only [normalizedPairsOkS, normalizedPairsOk, hlc, hpure, if_true]
        exact ⟨by simp, hsound, hmono⟩
      | dict d2 =>
        simp only [normalizedPairsOkS, normalizedPairsOk, hlc, hpure, if_true]
        exact ⟨by simp, hsound, hmono⟩

/-- The cached configuration-string check agrees with the cache-free one
from any sound cache, preserves soundness, and only grows the cache. -/
theorem is_configuration_stringS_spec (v langs : Value) (cache : List String)
    (h : CacheSound cache) :
    (is_configuration_stringS cache v langs).1 = is_configuration_string v langs ∧
    CacheSound (is_configuration_stringS cache v langs).2 ∧
    cache ⊆ (is_configuration_stringS cache v langs).2 := by
  cases v with
  | str s => exact ⟨rfl, h, fun x hx => hx⟩
  | dict d =>
    cases langs with
    | null =>
      by_cases hd : d.isEmpty = true
      · refine ⟨?_, ?_, ?_⟩ <;>
          simp [is_configuration_stringS, is_normalized_stringS,
            is_configuration_string, is_normalized_string, hd, h]
      · have hd' : d.isEmpty = false := by simpa using hd
        obtain ⟨h1, h2, h3⟩ := normalizedPairsOkS_spec d cache h
        refine ⟨?_, ?_, ?_⟩ <;>
          simp [is_configuration_stringS, is_normalized_stringS,
            is_configuration_string, is_normalized_string, hd', h1, h2, h3]
    | list ls =>
      by_cases hd : d.isEmpty = true
      · refine ⟨?_, ?_, ?_⟩ <;>
          simp [is_configuration_stringS, is_normalized_stringS,
            is_configuration_string, is_normalized_string, hd, h]
      · have hd' : d.isEmpty = false := by simpa using hd
        by_cases hl : ls.all (fun l => pyInKeys l (docKeys d)) = true
        · obtain ⟨h1, h2, h3⟩ := normalizedPairsOkS_spec d cache h
          refine ⟨?_, ?_, ?_⟩ <;>
            simp [is_configuration_stringS, is_normalized_stringS,
              is_configuration_string, is_normalized_string, hd', hl, h1, h2, h3]
        · have hl' : ls.all (fun l => pyInKeys l (docKeys d)) = false := by
            simpa using hl
          refine ⟨?_, ?_, ?_⟩ <;>
            simp [is_configuration_stringS, is_normalized_stringS,
              is_configuration_string, is_normalized_string, hd', hl', h]
    | str s2 => exact ⟨rfl, h, fun x hx => hx⟩
    | bool b2 => exact ⟨rfl, h, fun x hx => hx⟩
    | int n2 => exact ⟨rfl, h, fun x hx => hx⟩
    | dict d2 => exact ⟨rfl, h, fun x hx => hx⟩
  | null => exact ⟨rfl, h, fun x hx => hx⟩
  | bool b => exact ⟨rfl, h, fun x hx => hx⟩
  | int n => exact ⟨rfl, h, fun x hx => hx⟩
  | list xs => exact ⟨rfl, h, fun x hx => hx⟩

/-- Every character of the group matched by the language-tag regex is a
letter or the hyphen separator. -/
theorem langTagMatch_chars {cs g : List Char} {variety : Option (List Char)}
    (h : langTagMatch cs = some (g, variety)) :
    ∀ x ∈ g, isAlphaAZ x = true ∨ x = '-' := by
  intro x hx
  unfold langTagMatch at h
  by_cases hlen : ((cs.takeWhile isLowerAZ).take 3).length < 2
  · rw [if_pos hlen] at h
    cases h
  · rw [if_neg hlen] at h
    have hmemp : ∀ y ∈ (cs.takeWhile isLowerAZ).take 3, isAlphaAZ y = true := by
      intro y hy
      have := List.mem_takeWhile_imp (List.mem_of_mem_take hy)
      simp [isAlphaAZ, this]
    split at h
    · -- the character after the primary subtag is a hyphen
      simp only [] at h
      split at h
      · cases h
        exact Or.inl (hmemp x hx)
      · cases h
        rcases List.mem_append.mp hx with hxp | hxv
        · exact Or.inl (hmemp x hxp)
        · rcases List.mem_cons.mp hxv with rfl | hxv2
          · exact Or.inr rfl
          · exact Or.inl (List.mem_takeWhile_imp (List.mem_of_mem_take hxv2))
    · -- no variety group: the match is the primary subtag alone
      cases h
      exact Or.inl (hmemp x hx)

/-- An accepted language tag consists only of letters and hyphens. -/
theorem lang_pure_chars {s : String}
    (h : is_language_code_pure (.str s) = true) :
    ∀ x ∈ s.data, isAlphaAZ x = true ∨ x = '-' := by
  intro x hx
  by_cases he : pyIsEmptyString s = true
  · simp [is_language_code_pure, he] at h
  · have he' : pyIsEmptyString s = false := by simpa using he
    have h2 : langCodeValid s.data = true := by
      simpa [is_language_code_pure, he'] using h
    unfold langCodeValid at h2
    cases hm : langTagMatch s.data with
    | none => rw [hm] at h2; cases h2
    | some gv =>
      obtain ⟨g, variety⟩ := gv
      rw [hm] at h2
      by_cases hg : g = s.data
      · exact langTagMatch_chars hm x (hg ▸ hx)
      · simp [hg] at h2

/-- A whitespace character is neither a letter nor a hyphen. -/
theorem pyIsSpace_not_tag_char {c : Char} (h : pyIsSpace c = true) :
    ¬(isAlphaAZ c = true ∨ c = '-') := by
  intro hca
  rcases hca with hca | rfl
  · simp [pyIsSpace] at h
    simp [isAlphaAZ, isLowerAZ, isUpperAZ] at hca
    omega
  · simp [pyIsSpace] at h

/-- C9: the language-tag check accepts exactly the documented shapes,
case-sensitively: "en", "en-US", "zh-Hans" and "az-Cyrl" are accepted;
"FR", "e", "en_GB" and "az-Latin" are rejected; and any tag with leading
or trailing whitespace is rejected (from any sound cache state). -/
theorem C9_language_tag_shape :
    ((is_language_code [] (.str "en")).1 = true ∧
     (is_language_code [] (.str "en-US")).1 = true ∧
     (is_language_code [] (.str "zh-Hans")).1 = true ∧
     (is_language_code [] (.str "az-Cyrl")).1 = true) ∧
    ((is_language_code [] (.str "FR")).1 = false ∧
     (is_language_code [] (.str "e")).1 = false ∧
     (is_language_code [] (.str "en_GB")).1 = false ∧
     (is_language_code [] (.str "az-Latin")).1 = false) ∧
    (∀ (cache : List String) (c : Char) (cs : List Char),
      CacheSound cache → pyIsSpace c = true →
      (is_language_code cache (.str (String.mk (c :: cs)))).1 = false) ∧
    (∀ (cache : List String) (c : Char) (cs : List Char),
      CacheSound cache → pyIsSpace c = true →
      (is_language_code cache (.str (String.mk (cs ++ [c])))).1 = false) := by
  refine ⟨by decide, by decide, ?_, ?_⟩
  · intro cache c cs hs hc
    rcases Bool.eq_false_or_eq_true
        (is_language_code_pure (.str (String.mk (c :: cs)))) with hp | hp
    · exact absurd (lang_pure_chars hp c (by simp))
        (pyIsSpace_not_tag_char hc)
    · rw [is_language_code_fst _ _ hs, hp]
  · intro cache c cs hs hc
    rcases Bool.eq_false_or_eq_true
        (is_language_code_pure (.str (String.mk (cs ++ [c])))) with hp | hp
    · exact absurd (lang_pure_chars hp c (by simp))
        (pyIsSpace_not_tag_char hc)
    · rw [is_language_code_fst _ _ hs, hp]

theorem C9_language_tag_shape_witness :
    (is_language_code [] (.str (String.mk (' ' :: ['e', 'n'])))).1 = false ∧
    (is_language_code [] (.str (String.mk (['e', 'n'] ++ [' '])))).1 = false :=
  ⟨C9_language_tag_shape.2.2.1 [] ' ' ['e', 'n'] cacheSound_nil (by decide),
   C9_language_tag_shape.2.2.2 [] ' ' ['e', 'n'] cacheSound_nil (by decide)⟩

/-- C10: the language-tag and configuration-string checks are idempotent
and monotone with respect to the process-wide cache: from any sound cache
the verdict equals the cache-free verdict (so re-validation always yields
the same result), the cache only grows, a negative verdict never changes
it, every new entry is exactly a tag just judged valid, and once a tag is
judged valid every later call on it (over any extension of the resulting
cache) returns True. -/
theorem C10_cache_monotonicity :
    (∀ (cache : List String) (v : Value), CacheSound cache →
      (is_language_code cache v).1 = is_language_code_pure v ∧
      CacheSound (is_language_code cache v).2) ∧
    (∀ (cache : List String) (v : Value), cache ⊆ (is_language_code cache v).2) ∧
    (∀ (cache : List String) (v : Value), (is_language_code cache v).1 = false →
      (is_language_code cache v).2 = cache) ∧
    (∀ (cache : List String) (v : Value) (t : String),
      t ∈ (is_language_code cache v).2 →
      t ∈ cache ∨ (v = .str t ∧ (is_language_code cache v).1 = true)) ∧
    (∀ (cache : List String) (s : String),
      (is_language_code cache (.str s)).1 = true →
      ∀ cache2 : List String, (is_language_code cache (.str s)).2 ⊆ cache2 →
      (is_language_code cache2 (.str s)).1 = true) ∧
    (∀ (cache : List String) (v langs : Value), CacheSound cache →
      (is_configuration_stringS cache v langs).1 = is_configuration_string v langs ∧
      CacheSound (is_configuration_stringS cache v langs).2 ∧
      cache ⊆ (is_configuration_stringS cache v langs).2) := by
  refine ⟨?_, is_language_code_mono, is_language_code_false_unchanged,
    is_language_code_new_mem, is_language_code_true_stable, ?_⟩
  · intro cache v h
    exact ⟨is_language_code_fst cache v h, is_language_code_sound cache v h⟩
  · intro cache v langs h
    exact is_configuration_stringS_spec v langs cache h

theorem C10_cache_monotonicity_witness :
    ((is_language_code [] (.str "en")).1 = is_language_code_pure (.str "en") ∧
     CacheSound (is_language_code [] (.str "en")).2) ∧
    ((is_configuration_stringS [] (.str "hello") .null).1 =
      is_configuration_string (.str "hello") .null ∧
     CacheSound (is_configuration_stringS [] (.str "hello") .null).2 ∧
     [] ⊆ (is_configuration_stringS [] (.str "hello") .null).2) :=
  ⟨C10_cache_monotonicity.1 [] (.str "en") cacheSound_nil,
   C10_cache_monotonicity.2.2.2.2.2 [] (.str "hello") .null cacheSound_nil⟩

/-! ## The field loop: unknown keys -/

/-- If every field whose key differs from `k` is recognized and valid,
the schema loop stops at the first occurrence of `k` with the schema's
unknown-key message. -/
theorem validateFields_unknown
    (table : String → Option (Value → PyResult Verdict))
    (unknownMsg : String → String) (d : Doc) (k : String)
    (hk : k ∈ docKeys d) (hu : table k = none)
    (hv : ∀ p ∈ d, p.1 ≠ k →
      ∃ f, table p.1 = some f ∧ f p.2 = .ret (true, none)) :
    validateFields table unknownMsg d = .ret (false, some (unknownMsg k)) := by
  induction d with
  | nil => cases hk
  | cons p rest ih =>
    obtain ⟨k1, v1⟩ := p
    by_cases hkk : k1 = k
    · subst hkk
      simp [validateFields, hu]
    · obtain ⟨f, hf, hval⟩ := hv (k1, v1) (List.mem_cons_self _ _) hkk
      have hk2 : k ∈ docKeys rest := by
        have hcases : k = k1 ∨ k ∈ docKeys rest := by simpa [docKeys] using hk
        rcases hcases with rfl | h1
        · exact absurd rfl hkk
        · exact h1
      have htail := ih hk2 (fun p hp hne => hv p (List.mem_cons_of_mem _ hp) hne)
      simpa [validateFields, hf, hval] using htail

/-- A document holding a key outside the schema's table is never judged
valid by the field loop. -/
theorem validateFields_not_true
    (table : String → Option (Value → PyResult Verdict))
    (unknownMsg : String → String) (d : Doc) (k : String)
    (hk : k ∈ docKeys d) (hu : table k = none) :
    ∀ m, validateFields table unknownMsg d ≠ .ret (true, m) := by
  induction d with
  | nil => cases hk
  | cons p rest ih =>
    obtain ⟨k1, v1⟩ := p
    intro m
    by_cases hkk : k1 = k
    · subst hkk
      simp [validateFields, hu]
    · have hk2 : k ∈ docKeys rest := by
        have hcases : k = k1 ∨ k ∈ docKeys rest := by simpa [docKeys] using hk
        rcases hcases with rfl | h1
        · exact absurd rfl hkk
        · exact h1
      cases hf : table k1 with
      | none => simp [validateFields, hf]
      | some f =>
        cases hres : f v1 with
        | exc e => simp [validateFields, hf, hres]
        | ret pr =>
          obtain ⟨b, mm⟩ := pr
          cases b
          · simp [validateFields, hf, hres]
          · simpa [validateFields, hf, hres] using ih hk2 m

/-- The configuration-set loop never judges a set valid when it holds an
entry other than project, task_presenter or tutorial (reaching the entry
raises KeyError; an earlier entry may fail first). -/
theorem configSetLoop_not_true (tpv : Value) (d : Doc) (k : String)
    (hk : k ∈ docKeys d) (h1 : k ≠ "project") (h2 : k ≠ "task_presenter")
    (h3 : k ≠ "tutorial") :
    ∀ m, configSetLoop tpv d ≠ .ret (true, m) := by
  induction d with
  | nil => cases hk
  | cons p rest ih =>
    obtain ⟨k1, v1⟩ := p
    intro m
    by_cases hkk : k1 = k
    · subst hkk
      simp [configSetLoop, h1, h2, h3]
    · have hk2 : k ∈ docKeys rest := by
        have hcases : k = k1 ∨ k ∈ docKeys rest := by simpa [docKeys] using hk
        rcases hcases with rfl | hh
        · exact absurd rfl hkk
        · exact hh
      cases hstep : (if k1 = "project" then is_project_configuration v1
          else if k1 = "task_presenter" then is_task_presenter_configuration v1
          else if k1 = "tutorial" then is_tutorial_configuration v1 tpv false
          else .exc .keyError) with
      | exc e => simp [configSetLoop, hstep]
      | ret pr =>
        obtain ⟨b, mm⟩ := pr
        cases b
        · simp [configSetLoop, hstep]
        · simpa [configSetLoop, hstep] using ih hk2 m

/-- C1 (counterexample): a project configuration missing required fields
does not return a `(False, message)` verdict; it raises ValueError. -/
theorem C1_counterexample_project_valueerror :
    is_project_configuration (.dict [("name", .str "x")]) = .exc .valueError := by
  decide

/-- C1 (amended): missing required fields are reported as (False, message
naming exactly the missing fields) by the question validator, which also
treats an explicit null as missing; the task presenter and tutorial
validators report absent required fields the same way but do not treat a
null required field as missing (it reaches the field validator, which
raises TypeError); the project validator raises ValueError instead. -/
theorem C1_amended_missing_fields :
    (∀ d : Doc, questionRequiredFields.filter (missingIn d) ≠ [] →
      is_question (.dict d) .null =
        .ret (false, some (questionMissingMsg (questionRequiredFields.filter (missingIn d))))) ∧
    (∀ d : Doc, projectRequiredFields.all (hasKey d) = false →
      is_project_configuration (.dict d) = .exc .valueError) ∧
    (∀ d : Doc, hasKey d "questionnaire" = false →
      is_task_presenter_configuration (.dict d) =
        .ret (false, some (tpMissingMsg ["questionnaire"]))) ∧
    (∀ (d tpd : Doc), hasKey d "subjects" = false →
      is_tutorial_configuration (.dict d) (.dict tpd) false =
        .ret (false, some (tutorialMissingMsg ["subjects"]))) ∧
    is_task_presenter_configuration (.dict [("questionnaire", .null)]) = .exc .typeError ∧
    is_tutorial_configuration (.dict [("subjects", .null)]) (.dict []) false = .exc .typeError := by
  refine ⟨?_, ?_, ?_, ?_, by decide, by decide⟩
  · intro d hne
    have h1 : (questionRequiredFields.filter (missingIn d)).isEmpty = false := by
      simpa [List.isEmpty_iff] using hne
    simp [is_question, langsArgOk, h1]
  · intro d h
    simp [is_project_configuration, h]
  · intro d h
    simp [is_task_presenter_configuration, h]
  · intro d tpd h
    simp [is_tutorial_configuration, h]

theorem C1_amended_missing_fields_witness :
    (is_question (.dict []) .null =
      .ret (false, some (questionMissingMsg ["key", "title", "input"]))) ∧
    (is_project_configuration (.dict []) = .exc .valueError) ∧
    (is_task_presenter_configuration (.dict []) =
      .ret (false, some (tpMissingMsg ["questionnaire"]))) ∧
    (is_tutorial_configuration (.dict []) (.dict []) false =
      .ret (false, some (tutorialMissingMsg ["subjects"]))) :=
  ⟨C1_amended_missing_fields.1 [] (by decide),
   C1_amended_missing_fields.2.1 [] (by decide),
   C1_amended_missing_fields.2.2.1 [] (by decide),
   C1_amended_missing_fields.2.2.2.1 [] [] (by decide)⟩

/-- C2 (counterexample): a configuration set with an entry other than
project, task_presenter or tutorial does not return (False, message)
naming the field; reaching the entry raises KeyError. -/
theorem C2_counterexample_set_keyerror :
    is_configuration_set (.dict [("foo", .int 0),
      ("project", .dict [("name", .str "x")]),
      ("task_presenter", .dict [("questionnaire", .null)])]) = .exc .keyError := by
  decide

/-- C2 (amended): at the project and question levels a document holding
an unrecognized field, all of whose other fields are recognized and
valid, yields (False, message naming that field); at the top-level
configuration set an unrecognized entry is never silently accepted, but
it raises KeyError when reached instead of returning (False, message). -/
theorem C2_amended_unknown_fields :
    (∀ (d : Doc) (k : String), k ∈ docKeys d → projectFieldValidator k = none →
      projectRequiredFields.all (hasKey d) = true →
      (∀ p ∈ d, p.1 ≠ k → ∃ f, projectFieldValidator p.1 = some f ∧
        f p.2 = .ret (true, none)) →
      is_project_configuration (.dict d) = .ret (false, some (projectUnknownKeyMsg k))) ∧
    (∀ (d : Doc) (k : String), k ∈ docKeys d →
      questionFieldValidator .null k = none →
      questionRequiredFields.filter (missingIn d) = [] →
      (∀ p ∈ d, p.1 ≠ k → ∃ f, questionFieldValidator .null p.1 = some f ∧
        f p.2 = .ret (true, none)) →
      is_question (.dict d) .null = .ret (false, some (questionUnknownKeyMsg k))) ∧
    (∀ (d : Doc) (k : String), k ∈ docKeys d →
      k ≠ "project" → k ≠ "task_presenter" → k ≠ "tutorial" →
      ∀ m, is_configuration_set (.dict d) ≠ .ret (true, m)) := by
  refine ⟨?_, ?_, ?_⟩
  · intro d k hk hu hreq hv
    have hloop := validateFields_unknown projectFieldValidator
      projectUnknownKeyMsg d k hk hu hv
    simpa [is_project_configuration, hreq] using hloop
  · intro d k hk hu hmiss hv
    have hloop := validateFields_unknown (questionFieldValidator .null)
      questionUnknownKeyMsg d k hk hu hv
    have h1 : (questionRequiredFields.filter (missingIn d)).isEmpty = true := by
      simp [List.isEmpty_iff, hmiss]
    simpa [is_question, langsArgOk, h1] using hloop
  · intro d k hk h1 h2 h3 m
    by_cases hpre : (isNonemptyDict (pyGet d "project") &&
        isNonemptyDict (pyGet d "task_presenter")) = true
    · have hloop := configSetLoop_not_true (pyGet d "task_presenter") d k hk h1 h2 h3 m
      simpa [is_configuration_set, hpre] using hloop
    · have hpre2 : (isNonemptyDict (pyGet d "project") &&
          isNonemptyDict (pyGet d "task_presenter")) = false := by simpa using hpre
      simp [is_configuration_set, hpre2]

theorem C2_amended_unknown_fields_witness :
    (is_project_configuration (.dict [("name", .str "x"), ("short_name", .str "x"),
      ("description", .str "x"), ("foo", .int 1)]) =
      .ret (false, some (projectUnknownKeyMsg "foo"))) ∧
    (is_question (.dict [("key", .str "q"), ("title", .str "t"),
      ("input", .dict [("type", .str "polar")]), ("bogus", .str "x")]) .null =
      .ret (false, some (questionUnknownKeyMsg "bogus"))) ∧
    (∀ m, is_configuration_set (.dict [("foo", .int 0),
      ("project", .dict [("name", .str "x")]),
      ("task_presenter", .dict [("questionnaire", .null)])]) ≠ .ret (true, m)) := by
  refine ⟨?_, ?_, ?_⟩
  · refine C2_amended_unknown_fields.1 _ "foo" (by decide) rfl (by decide) ?_
    intro p hp hne
    have hp2 : p = ("name", Value.str "x") ∨ p = ("short_name", Value.str "x") ∨
        p = ("description", Value.str "x") ∨ p = ("foo", Value.int 1) := by
      simpa using hp
    rcases hp2 with rfl | rfl | rfl | rfl
    · exact ⟨is_project_name, rfl, rfl⟩
    · exact ⟨is_project_short_name, rfl, by decide⟩
    · exact ⟨is_project_description, rfl, rfl⟩
    · exact absurd rfl hne
  · refine C2_amended_unknown_fields.2.1 _ "bogus" (by decide) rfl (by decide) ?_
    intro p hp hne
    have hp2 : p = ("key", Value.str "q") ∨ p = ("title", Value.str "t") ∨
        p = ("input", Value.dict [("type", Value.str "polar")]) ∨
        p = ("bogus", Value.str "x") := by
      simpa using hp
    rcases hp2 with rfl | rfl | rfl | rfl
    · exact ⟨is_question_key, rfl, by decide⟩
    · exact ⟨fun v => is_question_title v .null, rfl, by decide⟩
    · exact ⟨fun v => is_question_input v .null, rfl, by decide⟩
    · exact absurd rfl hne
  · exact C2_amended_unknown_fields.2.2 _ "foo" (by decide)
      (by decide) (by decide) (by decide)

/-- C5 (counterexample): with the configuration set iterated in the
order tutorial, project, task_presenter, the invalid tutorial's message
is returned although the project member is also invalid — the loop
follows the document's iteration order, not the fixed order project,
task presenter, tutorial. -/
theorem C5_counterexample_iteration_order :
    is_configuration_set (.dict [
      ("tutorial", .dict [("enable-random-order", .bool true)]),
      ("project", .dict [("name", .str "x"), ("short_name", .str "x"),
        ("description", .int 3)]),
      ("task_presenter", .dict [("questionnaire", .dict [("questions",
        .list [.dict [("key", .str "ready"), ("title", .str "Ready?"),
          ("input", .dict [("type", .str "polar")])]])])])]) =
      .ret (false, some (tutorialMissingMsg ["subjects"])) ∧
    is_project_configuration (.dict [("name", .str "x"), ("short_name", .str "x"),
      ("description", .int 3)]) = .ret (false, some projectDescriptionTypeMsg) ∧
    tutorialMissingMsg ["subjects"] ≠ projectDescriptionTypeMsg := by
  refine ⟨by decide, by decide, by decide⟩

/-- C5 (amended): is_configuration_set validates the members in the
document's iteration order and returns the first failure in that order;
in particular, when the set lists project, task_presenter, tutorial in
that order, the first failure in that fixed order is returned, and the
set is valid when all three members are. -/
theorem C5_amended_first_failure_in_order :
    ∀ (pd td : Doc) (u : Value), pd ≠ [] → td ≠ [] →
      ((∀ m, is_project_configuration (.dict pd) = .ret (false, some m) →
        is_configuration_set (.dict [("project", .dict pd),
          ("task_presenter", .dict td), ("tutorial", u)]) = .ret (false, some m)) ∧
      (is_project_configuration (.dict pd) = .ret (true, none) →
        ∀ m, is_task_presenter_configuration (.dict td) = .ret (false, some m) →
        is_configuration_set (.dict [("project", .dict pd),
          ("task_presenter", .dict td), ("tutorial", u)]) = .ret (false, some m)) ∧
      (is_project_configuration (.dict pd) = .ret (true, none) →
        is_task_presenter_configuration (.dict td) = .ret (true, none) →
        ∀ m, is_tutorial_configuration u (.dict td) false = .ret (false, some m) →
        is_configuration_set (.dict [("project", .dict pd),
          ("task_presenter", .dict td), ("tutorial", u)]) = .ret (false, some m)) ∧
      (is_project_configuration (.dict pd) = .ret (true, none) →
        is_task_presenter_configuration (.dict td) = .ret (true, none) →
        is_tutorial_configuration u (.dict td) false = .ret (true, none) →
        is_configuration_set (.dict [("project", .dict pd),
          ("task_presenter", .dict td), ("tutorial", u)]) = .ret (true, none))) := by
  intro pd td u hp ht
  cases pd with
  | nil => exact absurd rfl hp
  | cons p0 pdrest =>
    cases td with
    | nil => exact absurd rfl ht
    | cons t0 tdrest =>
      refine ⟨?_, ?_, ?_, ?_⟩
      · intro m hm
        simp [is_configuration_set, pyGet, getField, isNonemptyDict,
          configSetLoop, hm]
      · intro h1 m hm
        simp [is_configuration_set, pyGet, getField, isNonemptyDict,
          configSetLoop, h1, hm]
      · intro h1 h2 m hm
        simp [is_configuration_set, pyGet, getField, isNonemptyDict,
          configSetLoop, h1, h2, hm]
      · intro h1 h2 h3
        simp [is_configuration_set, pyGet, getField, isNonemptyDict,
          configSetLoop, h1, h2, h3]

theorem C5_amended_first_failure_in_order_witness :
    is_configuration_set (.dict [
      ("project", .dict [("name", .str "x"), ("short_name", .str "x"),
        ("description", .int 3)]),
      ("task_presenter", .dict [("questionnaire", .null)]),
      ("tutorial", .null)]) =
      .ret (false, some projectDescriptionTypeMsg) :=
  (C5_amended_first_failure_in_order
    [("name", .str "x"), ("short_name", .str "x"), ("description", .int 3)]
    [("questionnaire", .null)] .null
    (by simp) (by simp)).1 projectDescriptionTypeMsg (by decide)

/-- C3: the task-presenter validator accepts a configuration whose
declared available-language list is not honoured by a question title,
because the questionnaire validator is invoked without the language list
(its `languages` parameter keeps its default None); had the list been
threaded, the same question would fail the title check. -/
theorem C3_language_list_not_threaded :
    is_task_presenter_configuration (.dict [
      ("language", .dict [("available", .list [.str "en", .str "fr"]),
        ("default", .str "en")]),
      ("questionnaire", .dict [("questions", .list [.dict [
        ("key", .str "q"), ("title", .dict [("en", .str "Hi")]),
        ("input", .dict [("type", .str "polar")])]])])]) = .ret (true, none) ∧
    is_question (.dict [("key", .str "q"), ("title", .dict [("en", .str "Hi")]),
      ("input", .dict [("type", .str "polar")])]) (.list [.str "en", .str "fr"]) =
      .ret (false, some questionTitleMsg) := by
  exact ⟨by decide, by decide⟩

/-- C4 (counterexample): an integer question title raises TypeError
instead of producing a (False, message) verdict. -/
theorem C4_counterexample_title_typeerror :
    is_question_title (.int 42) .null = .exc .typeError := by decide

/-- C4 (amended): a value that is neither a string nor a mapping raises
TypeError when passed directly to the configuration-string check or as a
question title, hint or help; only call sites that guard the check (such
as a text input's placeholder) convert it into (False, message). -/
theorem C4_amended_config_string_typeerror :
    ∀ (v langs : Value), (∀ s, v ≠ .str s) → (∀ d, v ≠ .dict d) →
      (is_configuration_string v langs = .exc .typeError ∧
       is_question_title v langs = .exc .typeError ∧
       is_question_help v langs = .exc .typeError ∧
       (v ≠ .null → ∀ d : Doc, pyGet d "placeholder" = v →
         is_text_input d langs = .ret (false, some placeholderMsg))) := by
  intro v langs hs hd
  have hcfg : is_configuration_string v langs = .exc .typeError := by
    cases v with
    | str s => exact absurd rfl (hs s)
    | dict d2 => exact absurd rfl (hd d2)
    | null => rfl
    | bool b => rfl
    | int n => rfl
    | list l => rfl
  refine ⟨hcfg, ?_, ?_, ?_⟩
  · simp [is_question_title, hcfg]
  · simp [is_question_help, hcfg]
  · intro hnull d hp
    cases v with
    | str s => exact absurd rfl (hs s)
    | dict d2 => exact absurd rfl (hd d2)
    | null => exact absurd rfl hnull
    | bool b => simp [is_text_input, hp, hcfg]
    | int n => simp [is_text_input, hp, hcfg]
    | list l => simp [is_text_input, hp, hcfg]

theorem C4_amended_config_string_typeerror_witness :
    is_configuration_string (.int 42) .null = .exc .typeError ∧
    is_question_title (.int 42) .null = .exc .typeError ∧
    is_question_help (.int 42) .null = .exc .typeError ∧
    is_text_input [("placeholder", .int 42)] .null =
      .ret (false, some placeholderMsg) := by
  obtain ⟨h1, h2, h3, h4⟩ := C4_amended_config_string_typeerror (.int 42) .null
    (fun s h => Value.noConfusion h) (fun d h => Value.noConfusion h)
  exact ⟨h1, h2, h3, h4 (fun h => Value.noConfusion h) [("placeholder", .int 42)] rfl⟩

/-- C6: tutorial-subject assertions do not behave as specified: a
reserved (underscore-prefixed) key is rejected by the ordinary
question-key check, and an assertion under a valid ordinary key is never
validated — is_tutorial_subject_assertion unconditionally raises
NotImplementedError, so no non-empty assertions mapping is ever
accepted. -/
theorem C6_assertions_unimplemented :
    is_tutorial_subject_assertions (.dict [("_foo",
      .dict [("expects", .str "x")])]) .null =
      .ret (false, some questionKeyMsg) ∧
    is_tutorial_subject_assertions (.dict [("foo",
      .dict [("expects", .str "x")])]) .null = .exc .notImplementedError := by
  exact ⟨by decide, by decide⟩

/-- When the type field is present, recognized, and every other field is
in the type's allow-list, is_question_input dispatches to the per-type
validator. -/
theorem is_question_input_dispatch
    (d : Doc) (langs : Value) (t : String)
    (hlangs : langsArgOk langs = true)
    (hget : getField d "type" = some (.str t))
    (hne : pyIsEmptyString t = false)
    (hmem : inputTypes.contains t = true)
    (hkeys : ∀ k ∈ docKeys d, k = "type" ∨ k ∈ expectedInputFields t) :
    is_question_input (.dict d) langs =
      (match inputValidator t with
       | some f => f d langs
       | none => .ret (false, some (inputValidatorUnknownMsg t))) := by
  have hmissing : missingIn d "type" = false := by simp [missingIn, hget]
  have hm2 : inputRequiredFields.filter (missingIn d) = [] := by
    simp [inputRequiredFields, hmissing]
  have hpg : pyGet d "type" = .str t := by simp [pyGet, hget]
  have hmem2 : t ∈ inputTypes := by simpa using hmem
  have htype : is_question_input_type (.str t) = .ret (true, none) := by
    simp [is_question_input_type, hne, hmem2]
  have hnex : ¬∃ x ∈ docKeys d, x ∉ expectedInputFields t ∧ x ∉ inputRequiredFields := by
    rintro ⟨x, hx, hnexp, hnreq⟩
    rcases hkeys x hx with rfl | hexp
    · exact hnreq (by simp [inputRequiredFields])
    · exact hnexp hexp
  simp [is_question_input, hlangs, hm2, hpg, htype, hnex]
  cases inputValidator t <;> rfl

/-- C7: a question input typed dropdown-list, number, datetime or url
that passes the required-field check and the per-type allow-list check
raises NotImplementedError instead of returning a verdict. -/
theorem C7_unimplemented_input_types :
    ∀ (d : Doc) (langs : Value) (t : String),
      (t = "dropdown-list" ∨ t = "number" ∨ t = "datetime" ∨ t = "url") →
      langsArgOk langs = true →
      getField d "type" = some (.str t) →
      (∀ k ∈ docKeys d, k = "type" ∨ k ∈ expectedInputFields t) →
      is_question_input (.dict d) langs = .exc .notImplementedError := by
  intro d langs t ht hlangs hget hkeys
  rcases ht with rfl | rfl | rfl | rfl <;>
    rw [is_question_input_dispatch d langs _ hlangs hget (by decide) (by decide) hkeys] <;>
    rfl

theorem C7_unimplemented_input_types_witness :
    is_question_input (.dict [("type", .str "number")]) .null =
      .exc .notImplementedError :=
  C7_unimplemented_input_types [("type", .str "number")] .null "number"
    (Or.inr (Or.inl rfl)) rfl rfl (by decide)

/-- C8: a text input whose min-length and max-length are both present
non-negative integers with max-length < min-length fails with the
message that max-length must be greater than or equal to min-length. -/
theorem C8_text_max_lt_min :
    ∀ (d : Doc) (langs : Value) (a b : Int),
      langsArgOk langs = true →
      getField d "type" = some (.str "text") →
      (∀ k ∈ docKeys d, k = "type" ∨ k ∈ expectedInputFields "text") →
      (match pyGet d "placeholder" with
        | Value.null => true
        | v =>
          match is_configuration_string v langs with
          | .ret bb => bb
          | .exc _ => false) = true →
      (match pyGet d "enable-long-text" with
        | Value.null => true
        | .bool _ => true
        | _ => false) = true →
      pyGet d "min-length" = .int a → 0 ≤ a →
      pyGet d "max-length" = .int b → 0 ≤ b → b < a →
      is_question_input (.dict d) langs = .ret (false, some maxGeMinMsg) := by
  intro d langs a b hlangs hget hkeys hpl hlt hmin ha hmax hb hba
  rw [is_question_input_dispatch d langs _ hlangs hget (by decide) (by decide) hkeys]
  show is_text_input d langs = _
  have ha2 : ¬a < 0 := by omega
  have hb2 : ¬b < 0 := by omega
  simp [is_text_input, hpl, hlt, hmin, hmax, ha2, hb2, hba]

theorem C8_text_max_lt_min_witness :
    is_question_input (.dict [("type", .str "text"), ("min-length", .int 5),
      ("max-length", .int 3)]) .null = .ret (false, some maxGeMinMsg) :=
  C8_text_max_lt_min [("type", .str "text"), ("min-length", .int 5),
      ("max-length", .int 3)] .null 5 3
    rfl rfl (by decide) rfl rfl rfl (by decide) rfl (by decide) (by decide)
